import Mathlib

/-!
Verification of the retry-with-backoff transport wrapper and validators of
the hyperliquid request layer (src/hyperliquid/api.py and
src/hyperliquid/utils/error_handling.py), as a shallow embedding in Lean.

Python strings are modelled as lists of characters; Python float delays
are modelled as exact rationals (all delay values exercised here, powers
of two clamped at ten, are exactly representable in binary floating point,
so the rational model agrees with the source on every value it computes).
Python exceptions are modelled by an explicit error type and `Except`.
-/

namespace Hyperliquid

/-- Characters stripped by int and float string conversion in the source
language (the ASCII whitespace set). -/
def isPySpace (c : Char) : Bool :=
  c = ' ' || c = '\t' || c = '\n' || c = '\r' || c = '\x0b' || c = '\x0c'

/-- Strip leading and trailing whitespace, as int and float conversion do. -/
def stripPySpaces (l : List Char) : List Char :=
  ((l.dropWhile isPySpace).reverse.dropWhile isPySpace).reverse

/-- Base-16 digit test: 0-9, a-f, A-F. -/
def pyIsHexDigit (c : Char) : Bool :=
  c.isDigit || ('a' ≤ c && c ≤ 'f') || ('A' ≤ c && c ≤ 'F')

/-- After an initial base-16 digit, the conversion accepts further digits
with single underscores allowed only between digits. -/
def hexTail : List Char → Bool
  | [] => true
  | [c] => if c = '_' then false else pyIsHexDigit c
  | c :: c2 :: rest =>
      if c = '_' then pyIsHexDigit c2 && hexTail rest
      else pyIsHexDigit c && hexTail (c2 :: rest)

/-- A nonempty base-16 digit run, single underscores allowed between
digits. -/
def pyHexDigits : List Char → Bool
  | c :: rest => pyIsHexDigit c && hexTail rest
  | [] => false

/-- Digits after the 0x marker, one leading underscore allowed. -/
def hexAfterMark (l : List Char) : Bool :=
  match l with
  | c :: r2 => if c = '_' then pyHexDigits r2 else pyHexDigits (c :: r2)
  | [] => pyHexDigits []

/-- Digit part of the base-16 int conversion grammar: an optional 0x or 0X
marker (optionally followed by one underscore), then base-16 digits. -/
def pyIntHexBody (l : List Char) : Bool :=
  match l with
  | c0 :: c1 :: r =>
      if c0 = '0' && (c1 = 'x' || c1 = 'X') then hexAfterMark r
      else pyHexDigits (c0 :: c1 :: r)
  | short => pyHexDigits short

/-- Drop one optional leading sign. -/
def afterSign : List Char → List Char
  | [] => []
  | c :: r => if c = '+' || c = '-' then r else c :: r

/-- Acceptance of the int conversion with base 16 of the source language:
surrounding whitespace, an optional sign, an optional 0x marker, base-16
digits with single underscores between digits. The conversion raises
ValueError exactly when this returns false. -/
def pyIntHex16Ok (l : List Char) : Bool :=
  pyIntHexBody (afterSign (stripPySpaces l))

/-- Model of a dynamically typed value passed to the validators: a string,
an int, a float (as an exact rational), None, a list or a dict. The
functions modelled never inspect list or dict contents, so those are
carried as opaque identifiers. -/
inductive PyValue where
  | str (s : List Char)
  | int (n : Int)
  | float (q : ℚ)
  | pynone
  | pylist (id : Nat)
  | pydict (id : Nat)
  deriving DecidableEq

/-- Whether a value is a string (the isinstance str check). -/
def PyValue.isStr : PyValue → Bool
  | .str _ => true
  | _ => false

/-- Whether a list of characters starts with the two characters 0x
(the startswith check of the source). -/
def starts0x : List Char → Bool
  | c0 :: c1 :: _ => c0 = '0' && c1 = 'x'
  | _ => false

/-- validate_address from src/hyperliquid/utils/error_handling.py:
returns false for a non-string, a string not starting with 0x, or a string
whose length is not 42; otherwise tries the base-16 int conversion on the
characters after the first two, returning true on success and false on
ValueError. -/
def validate_address (address : PyValue) : Bool :=
  match address with
  | .str s =>
    if !(starts0x s) then false
    else if s.length ≠ 42 then false
    else pyIntHex16Ok (s.drop 2)
  | _ => false

/-- The shape the claim asserts validate_address recognises: a string of
exactly 42 characters starting with 0x whose remaining 40 characters are
all base-16 digits. -/
def claimAddrShape : PyValue → Bool
  | .str s => (s.length = 42 : Bool) && starts0x s && (s.drop 2).all pyIsHexDigit
  | _ => false

/-- The part of the shape that validate_address does enforce: a string of
exactly 42 characters starting with 0x. -/
def addrShape42 : PyValue → Bool
  | .str s => (s.length = 42 : Bool) && starts0x s
  | _ => false

/-- Numeric value of an ASCII digit character. -/
def digitVal (c : Char) : Nat := c.toNat - 48

/-- Consume a maximal run of decimal digits, single underscores allowed
between digits; returns the accumulated value, the number of digits read,
and the rest of the input. A leading underscore (cnt still zero) is not
consumed. -/
def decRun : Nat → Nat → List Char → Nat × Nat × List Char
  | acc, cnt, '_' :: c :: rest =>
      if 0 < cnt && c.isDigit then decRun (acc * 10 + digitVal c) (cnt + 1) rest
      else (acc, cnt, '_' :: c :: rest)
  | acc, cnt, c :: rest =>
      if c.isDigit then decRun (acc * 10 + digitVal c) (cnt + 1) rest
      else (acc, cnt, c :: rest)
  | acc, cnt, [] => (acc, cnt, [])

/-- Body of the base-10 int conversion after whitespace stripping and sign
handling: a nonempty digit run consuming the whole input. -/
def pyIntBody (l : List Char) : Option Nat :=
  match decRun 0 0 l with
  | (v, cnt, []) => if 0 < cnt then some v else none
  | _ => none

/-- The int conversion of the source language on a string (base 10):
surrounding whitespace, optional sign, decimal digits with single
underscores between digits; none models ValueError. -/
def pyIntOfString (l : List Char) : Option Int :=
  match stripPySpaces l with
  | '+' :: r => (pyIntBody r).map (fun n => (n : Int))
  | '-' :: r => (pyIntBody r).map (fun n => -(n : Int))
  | r => (pyIntBody r).map (fun n => (n : Int))

/-- Optional exponent marker of the float conversion grammar: empty input
keeps the mantissa, otherwise an e or E, an optional sign, and a nonempty
digit run ending the input. -/
def pyExpPart (m : ℚ) : List Char → Option ℚ
  | [] => some m
  | 'e' :: r =>
      (match r with
       | '+' :: t => (match decRun 0 0 t with
           | (v, cnt, []) => if 0 < cnt then some (m * 10 ^ v) else none
           | _ => none)
       | '-' :: t => (match decRun 0 0 t with
           | (v, cnt, []) => if 0 < cnt then some (m / 10 ^ v) else none
           | _ => none)
       | t => (match decRun 0 0 t with
           | (v, cnt, []) => if 0 < cnt then some (m * 10 ^ v) else none
           | _ => none))
  | 'E' :: r =>
      (match r with
       | '+' :: t => (match decRun 0 0 t with
           | (v, cnt, []) => if 0 < cnt then some (m * 10 ^ v) else none
           | _ => none)
       | '-' :: t => (match decRun 0 0 t with
           | (v, cnt, []) => if 0 < cnt then some (m / 10 ^ v) else none
           | _ => none)
       | t => (match decRun 0 0 t with
           | (v, cnt, []) => if 0 < cnt then some (m * 10 ^ v) else none
           | _ => none))
  | _ => none

/-- Mantissa and exponent of the float conversion grammar after sign
handling: digits, an optional point with further digits, and an optional
exponent; at least one mantissa digit is required. The infinity and nan
spellings are omitted: they contain no point, so the float branch of
validate_numeric_param, guarded by a point being present, never sees
them. -/
def pyFloatBody (l : List Char) : Option ℚ :=
  match decRun 0 0 l with
  | (ip, icnt, rest) =>
    match rest with
    | '.' :: r2 =>
      (match decRun 0 0 r2 with
       | (fp, fcnt, r3) =>
         if 0 < icnt + fcnt then
           pyExpPart ((ip : ℚ) + (fp : ℚ) / 10 ^ fcnt) r3
         else none)
    | r2 =>
      if 0 < icnt then pyExpPart (ip : ℚ) r2 else none

/-- The float conversion of the source language on a string: surrounding
whitespace, optional sign, decimal mantissa with optional point and
exponent; none models ValueError. -/
def pyFloatOfString (l : List Char) : Option ℚ :=
  match stripPySpaces l with
  | '+' :: r => pyFloatBody r
  | '-' :: r => (pyFloatBody r).map Neg.neg
  | r => pyFloatBody r

/-- Structured content of the InvalidParameterError messages built by
validate_numeric_param; each constructor carries exactly the data the
source interpolates into the message string (the parameter name, the
offending value, and the violated bound). -/
inductive ValidationErr where
  | mustBeNumber (param : String)
  | belowMin (param : String) (value : PyValue) (min_value : PyValue)
  | aboveMax (param : String) (value : PyValue) (max_value : PyValue)
  deriving DecidableEq

/-- Exception model: APIError with its message, optional status code and
optional raw response text; InvalidParameterError with its structured
message; TypeError for unsupported dynamic operations. -/
inductive PyExc where
  | apiError (msg : String) (status_code : Option Int) (response : Option String)
  | invalidParameterError (err : ValidationErr)
  | typeError (msg : String)
  deriving DecidableEq

/-- Instance test for the default retryable tuple of retry_on_failure,
which contains exactly the APIError class. -/
def isAPIError : PyExc → Bool
  | .apiError _ _ _ => true
  | _ => false

/-- Conversion step of validate_numeric_param: a string with a point is
converted by float, any other string by int, conversion failure raises
InvalidParameterError; a non-string value is taken as is. -/
def convertNumeric (value : PyValue) (param_name : String) :
    Except PyExc PyValue :=
  match value with
  | .str s =>
      if s.contains '.' then
        match pyFloatOfString s with
        | some q => .ok (.float q)
        | none => .error (.invalidParameterError (.mustBeNumber param_name))
      else
        match pyIntOfString s with
        | some n => .ok (.int n)
        | none => .error (.invalidParameterError (.mustBeNumber param_name))
  | v => .ok v

/-- Numeric reading of a value for comparison purposes. -/
def pyNumQ : PyValue → Option ℚ
  | .int n => some (n : ℚ)
  | .float q => some q
  | _ => none

/-- Dynamic less-than: defined on numbers, TypeError otherwise. -/
def pyLt (a b : PyValue) : Except PyExc Bool :=
  match pyNumQ a, pyNumQ b with
  | some x, some y => .ok (decide (x < y))
  | _, _ => .error (.typeError "unsupported comparison")

/-- Lower-bound check of validate_numeric_param: when a minimum is given
and num_value is less than it, raise InvalidParameterError carrying the
parameter name, the value and the minimum. -/
def checkMin (num_value : PyValue) (param_name : String) :
    Option PyValue → Except PyExc Unit
  | some mv =>
      match pyLt num_value mv with
      | .error ex => .error ex
      | .ok b =>
          if b then .error (.invalidParameterError (.belowMin param_name num_value mv))
          else .ok ()
  | none => .ok ()

/-- Upper-bound check of validate_numeric_param: when a maximum is given
and num_value is greater than it, raise InvalidParameterError carrying the
parameter name, the value and the maximum. -/
def checkMax (num_value : PyValue) (param_name : String) :
    Option PyValue → Except PyExc Unit
  | some xv =>
      match pyLt xv num_value with
      | .error ex => .error ex
      | .ok b =>
          if b then .error (.invalidParameterError (.aboveMax param_name num_value xv))
          else .ok ()
  | none => .ok ()

/-- validate_numeric_param from src/hyperliquid/utils/error_handling.py:
convert the value (string via float or int by the point test, any other
value unchanged), then check the optional inclusive bounds in order,
raising InvalidParameterError naming the parameter, the value and the
violated bound; on success return the converted value. -/
def validate_numeric_param (value : PyValue) (param_name : String)
    (min_value : Option PyValue) (max_value : Option PyValue) :
    Except PyExc PyValue :=
  match convertNumeric value param_name with
  | .error ex => .error ex
  | .ok num_value =>
      match checkMin num_value param_name min_value with
      | .error ex => .error ex
      | .ok _ =>
          match checkMax num_value param_name max_value with
          | .error ex => .error ex
          | .ok _ => .ok num_value

/-- Result of one run of a function wrapped by retry_on_failure: a normal
return, a raised exception, or the raise of the still-None last_exception
slot (a TypeError in the source language, kept separate to make that edge
visible). -/
inductive RunOutcome (α : Type) where
  | ok (a : α)
  | raised (e : PyExc)
  | raisedNone

/-- Observable trace of one run of the wrapper: the outcome, how many
times the wrapped function was called, and the sleep durations in order. -/
structure RunTrace (α : Type) where
  outcome : RunOutcome α
  attempts : Nat
  sleeps : List ℚ

/-- Loop body of the wrapper in retry_on_failure. `remaining` is the
number of loop iterations the range still allows, `idx` the current value
of the loop variable retry (equal to the number of calls already made),
`delay` the current delay, `sleepsRev` the sleeps performed so far in
reverse, `last` the last_exception slot. Each iteration calls the wrapped
function: a return ends the run; an exception not matching the retryable
tuple propagates; a matching exception is stored and, when the loop
variable has reached max_retries, the loop breaks to raise it, otherwise
the loop sleeps, updates the delay to min of delay times backoff_factor
and max_delay, and continues. Falling out of the range raises the
last_exception slot. -/
def retryGo (catchP : PyExc → Bool) (max_retries : Nat)
    (max_delay backoff_factor : ℚ) (f : Nat → Except PyExc α) :
    Nat → Nat → ℚ → List ℚ → Option PyExc → RunTrace α
  | 0, idx, _, sleepsRev, last =>
      { outcome := match last with
          | some e => RunOutcome.raised e
          | none => RunOutcome.raisedNone
        attempts := idx
        sleeps := sleepsRev.reverse }
  | remaining + 1, idx, delay, sleepsRev, _ =>
      match f idx with
      | .ok a =>
          { outcome := RunOutcome.ok a
            attempts := idx + 1
            sleeps := sleepsRev.reverse }
      | .error e =>
          if catchP e then
            if idx = max_retries then
              { outcome := RunOutcome.raised e
                attempts := idx + 1
                sleeps := sleepsRev.reverse }
            else
              retryGo catchP max_retries max_delay backoff_factor f
                remaining (idx + 1) (min (delay * backoff_factor) max_delay)
                (delay :: sleepsRev) (some e)
          else
            { outcome := RunOutcome.raised e
              attempts := idx + 1
              sleeps := sleepsRev.reverse }

/-- retry_on_failure from src/hyperliquid/utils/error_handling.py, applied
to a wrapped function modelled by its outcome on each successive call
(argument the zero-based attempt index). Source defaults: max_retries 3,
initial_delay 1.0, max_delay 10.0, backoff_factor 2.0, retryable tuple
containing exactly APIError. -/
def retry_on_failure (max_retries : Nat)
    (initial_delay max_delay backoff_factor : ℚ) (catchP : PyExc → Bool)
    (f : Nat → Except PyExc α) : RunTrace α :=
  retryGo catchP max_retries max_delay backoff_factor f
    (max_retries + 1) 0 initial_delay [] none

/-- The value of the delay variable at the start of iteration k (so also
the duration of the k-th sleep, zero-based): initial_delay first, then
each sleep is followed by the update to min of delay times backoff_factor
and max_delay. -/
def delaySeq (initial_delay max_delay backoff_factor : ℚ) : Nat → ℚ
  | 0 => initial_delay
  | k + 1 => min (delaySeq initial_delay max_delay backoff_factor k * backoff_factor) max_delay

/-- An HTTP response as the post method observes it: whether
raise_for_status passes (a success status), the status code, the raw body
text, and the result of JSON-decoding the body (none when the body is not
valid JSON; the JSON codec itself is an external collaborator and is
modelled by this field). -/
structure HTTPResponse where
  okStatus : Bool
  status_code : Int
  text : String
  jsonBody : Option PyValue

/-- Outcome of one underlying network call: a response, or a connection
level failure (a RequestException carrying no response object). -/
inductive NetResult where
  | response (r : HTTPResponse)
  | connError (msg : String)

/-- One attempt of API.post from src/hyperliquid/api.py, given the network
outcome for that attempt: a connection failure or a non-success status
raises APIError with the request-failed message (status code and body text
attached when a response exists); a success status with a body that is not
valid JSON raises APIError with the decode-failed message; a success
status with valid JSON returns the decoded value. The str interpolation of
the underlying exception in each message is abstracted to a fixed tag. -/
def postAttempt (net : NetResult) : Except PyExc PyValue :=
  match net with
  | .connError msg =>
      .error (.apiError ("API request failed: " ++ msg) none none)
  | .response r =>
      if !r.okStatus then
        .error (.apiError "API request failed: status" (some r.status_code) (some r.text))
      else
        match r.jsonBody with
        | some v => .ok v
        | none => .error (.apiError "Failed to decode API response: decode" none none)

/-- API.post wrapped by the retry_on_failure decorator with max_retries 3
and the remaining defaults, over a sequence of network outcomes, one per
attempt. -/
def API.post (net : Nat → NetResult) : RunTrace PyValue :=
  retry_on_failure 3 1 10 2 isAPIError (fun i => postAttempt (net i))

/-! Concrete inputs used to exercise the definitions. -/

/-- A 42-character address: 0x, a plus sign, then 39 zeros. The base-16
int conversion accepts the sign, though the plus sign is not a base-16
digit. -/
def plusAddr : PyValue := .str ('0' :: 'x' :: '+' :: List.replicate 39 '0')

/-- A 42-character address with 40 base-16 digits after the 0x. -/
def goodAddr : PyValue := .str ('0' :: 'x' :: List.replicate 40 'a')

/-- The error raised by the i-th failing attempt of failSeq. -/
def failErr (i : Nat) : PyExc := .apiError ("fail " ++ toString i) none none

/-- A wrapped function failing on every attempt with a distinct APIError. -/
def failSeq (i : Nat) : Except PyExc Unit := .error (failErr i)

/-- A wrapped function failing once with an APIError, then returning 7. -/
def sndOkSeq (i : Nat) : Except PyExc Nat :=
  if i = 0 then .error (.apiError "fail" none none) else .ok 7

/-- A wrapped function raising InvalidParameterError on every attempt. -/
def valFailSeq (_ : Nat) : Except PyExc Unit :=
  .error (.invalidParameterError (.mustBeNumber "x"))

/-- A network that always answers with a success status whose body is not
valid JSON. -/
def badBodyNet (_ : Nat) : NetResult :=
  .response { okStatus := true, status_code := 200, text := "garbage", jsonBody := none }

/-! Helper lemmas about the retry loop. -/

/-- The loop never raises the None sentinel as long as an empty range can
only be entered with a stored exception; the top-level wrapper always
starts with a nonempty range. -/
theorem retryGo_ne_raisedNone (catchP : PyExc → Bool) (max_retries : Nat)
    (max_delay backoff_factor : ℚ) (f : Nat → Except PyExc α) :
    ∀ (r idx : Nat) (delay : ℚ) (sleepsRev : List ℚ) (last : Option PyExc),
      (r = 0 → last ≠ none) →
      (retryGo catchP max_retries max_delay backoff_factor f
          r idx delay sleepsRev last).outcome ≠ RunOutcome.raisedNone := by
  intro r
  induction r with
  | zero =>
    intro idx delay sleepsRev last h
    cases last with
    | none => exact absurd rfl (h rfl)
    | some e => simp [retryGo]
  | succ r ih =>
    intro idx delay sleepsRev last _
    cases hfi : f idx with
    | ok a => simp [retryGo, hfi]
    | error e =>
      simp only [retryGo, hfi]
      by_cases hc : catchP e
      · by_cases hi : idx = max_retries
        · simp [hc, hi]
        · simpa [hc, hi] using ih (idx + 1)
            (min (delay * backoff_factor) max_delay) (delay :: sleepsRev)
            (some e) (fun _ => by simp)
      · simp [hc]

/-- When the wrapped function fails on every attempt with an exception the
policy catches, the loop, entered at iteration idx with the matching delay
and sleep history, runs to the break on the last iteration: the trace
shows one call per iteration, a sleep before each non-final iteration, and
the exception of the final attempt raised. -/
theorem retryGo_allFail (catchP : PyExc → Bool) (max_retries : Nat)
    (initial_delay max_delay backoff_factor : ℚ) (f : Nat → Except PyExc α)
    (e : Nat → PyExc)
    (hf : ∀ i, f i = Except.error (e i) ∧ catchP (e i) = true) :
    ∀ (r idx : Nat) (last : Option PyExc), idx + r = max_retries + 1 → 0 < r →
      retryGo catchP max_retries max_delay backoff_factor f r idx
        (delaySeq initial_delay max_delay backoff_factor idx)
        (((List.range idx).map (delaySeq initial_delay max_delay backoff_factor)).reverse)
        last =
      ⟨RunOutcome.raised (e max_retries), max_retries + 1,
        (List.range max_retries).map (delaySeq initial_delay max_delay backoff_factor)⟩ := by
  intro r
  induction r with
  | zero => intro idx last h h0; omega
  | succ r ih =>
    intro idx last hsum _
    by_cases hr : r = 0
    · subst hr
      have hidx : idx = max_retries := by omega
      simp [retryGo, hidx, (hf max_retries).1, (hf max_retries).2]
    · have hne : idx ≠ max_retries := by omega
      have hrec := ih (idx + 1) (some (e idx)) (by omega) (by omega)
      have hdel : min (delaySeq initial_delay max_delay backoff_factor idx * backoff_factor)
          max_delay = delaySeq initial_delay max_delay backoff_factor (idx + 1) := rfl
      have hsl : delaySeq initial_delay max_delay backoff_factor idx ::
            ((List.range idx).map (delaySeq initial_delay max_delay backoff_factor)).reverse
          = ((List.range (idx + 1)).map
              (delaySeq initial_delay max_delay backoff_factor)).reverse := by
        simp [List.range_succ]
      simp only [retryGo, (hf idx).1, (hf idx).2, if_true, hne, if_false]
      rw [hdel, hsl]
      exact hrec

/-- Top-level version of the all-failures run: the wrapper makes
max_retries plus one calls, sleeps the delay sequence between them, and
raises the error of the final attempt. -/
theorem retry_allFail (catchP : PyExc → Bool) (max_retries : Nat)
    (initial_delay max_delay backoff_factor : ℚ) (f : Nat → Except PyExc α)
    (e : Nat → PyExc)
    (hf : ∀ i, f i = Except.error (e i) ∧ catchP (e i) = true) :
    retry_on_failure max_retries initial_delay max_delay backoff_factor catchP f =
      ⟨RunOutcome.raised (e max_retries), max_retries + 1,
        (List.range max_retries).map (delaySeq initial_delay max_delay backoff_factor)⟩ := by
  have h := retryGo_allFail catchP max_retries initial_delay max_delay backoff_factor
    f e hf (max_retries + 1) 0 none (by omega) (by omega)
  simpa [retry_on_failure, delaySeq] using h

/-- Closed form of the iterated delay update: the k-th sleep is the
initial delay times the k-th power of the backoff factor, clamped at the
maximum delay. -/
theorem delaySeq_closed (initial_delay max_delay backoff_factor : ℚ)
    (h2 : initial_delay ≤ max_delay) (h3 : 1 < backoff_factor) :
    ∀ k, delaySeq initial_delay max_delay backoff_factor k
        = min (initial_delay * backoff_factor ^ k) max_delay := by
  intro k
  induction k with
  | zero => simp [delaySeq, h2]
  | succ k ih =>
    rw [delaySeq, ih]
    rcases le_or_lt (initial_delay * backoff_factor ^ k) max_delay with h | h
    · rw [min_eq_left h, pow_succ, ← mul_assoc]
    · have hbfk : (1 : ℚ) ≤ backoff_factor ^ k := one_le_pow₀ h3.le
      have hinit : 0 < initial_delay := by
        by_contra hn
        push_neg at hn
        nlinarith
      have hmd : 0 < max_delay := lt_of_lt_of_le hinit h2
      have hlt1 : max_delay < max_delay * backoff_factor := by nlinarith
      have hlt2 : max_delay < initial_delay * backoff_factor ^ (k + 1) := by
        rw [pow_succ, ← mul_assoc]
        nlinarith
      rw [min_eq_right h.le, min_eq_right hlt1.le, min_eq_right hlt2.le]

/-- The delay sequence stays nonnegative when the initial delay is. -/
theorem delaySeq_nonneg (initial_delay max_delay backoff_factor : ℚ)
    (h0 : 0 ≤ initial_delay) (h2 : initial_delay ≤ max_delay)
    (h3 : 1 < backoff_factor) :
    ∀ k, 0 ≤ delaySeq initial_delay max_delay backoff_factor k := by
  intro k
  induction k with
  | zero => simpa [delaySeq] using h0
  | succ k ih =>
    rw [delaySeq]
    exact le_min (mul_nonneg ih (by linarith)) (le_trans h0 h2)

/-- The delay sequence never exceeds the maximum delay. -/
theorem delaySeq_le_max (initial_delay max_delay backoff_factor : ℚ)
    (h2 : initial_delay ≤ max_delay) :
    ∀ k, delaySeq initial_delay max_delay backoff_factor k ≤ max_delay := by
  intro k
  cases k with
  | zero => simpa [delaySeq] using h2
  | succ k => rw [delaySeq]; exact min_le_right _ _

/-- The delay sequence is non-decreasing for a nonnegative initial delay
not exceeding the maximum and a backoff factor above one. -/
theorem delaySeq_mono (initial_delay max_delay backoff_factor : ℚ)
    (h0 : 0 ≤ initial_delay) (h2 : initial_delay ≤ max_delay)
    (h3 : 1 < backoff_factor) :
    ∀ k, delaySeq initial_delay max_delay backoff_factor k
        ≤ delaySeq initial_delay max_delay backoff_factor (k + 1) := by
  intro k
  rw [delaySeq]
  refine le_min ?_ (delaySeq_le_max initial_delay max_delay backoff_factor h2 k)
  exact le_mul_of_one_le_right
    (delaySeq_nonneg initial_delay max_delay backoff_factor h0 h2 h3 k) h3.le

/-! Helper lemmas about the address check. -/

/-- A base-16 digit differs from any concrete character that is not one. -/
theorem hex_ne (c ch : Char) (h : pyIsHexDigit c = true)
    (hch : pyIsHexDigit ch = false) : c ≠ ch := by
  intro e
  rw [e, hch] at h
  cases h

/-- A base-16 digit is not stripped as whitespace. -/
theorem hex_not_space (c : Char) (h : pyIsHexDigit c = true) :
    isPySpace c = false := by
  by_contra hs
  rw [Bool.not_eq_false] at hs
  simp only [isPySpace, Bool.or_eq_true, decide_eq_true_eq] at hs
  rcases hs with ((((h1 | h1) | h1) | h1) | h1) | h1 <;> subst h1 <;>
    exact absurd h (by decide)

/-- dropWhile is the identity when the predicate fails on every element. -/
theorem dropWhile_id_of_not (p : Char → Bool) (l : List Char)
    (h : ∀ c ∈ l, p c = false) : l.dropWhile p = l := by
  cases l with
  | nil => rfl
  | cons c rest => rw [List.dropWhile_cons, h c (by simp)]; simp

/-- Whitespace stripping is the identity on a run of base-16 digits. -/
theorem stripPySpaces_of_allHex (l : List Char)
    (h : ∀ c ∈ l, pyIsHexDigit c = true) : stripPySpaces l = l := by
  rw [stripPySpaces, dropWhile_id_of_not isPySpace l (fun c hc => hex_not_space c (h c hc)),
    dropWhile_id_of_not isPySpace l.reverse
      (fun c hc => hex_not_space c (h c (List.mem_reverse.mp hc))),
    List.reverse_reverse]

/-- The underscore branch never fires on a run of base-16 digits. -/
theorem hexTail_of_allHex (l : List Char)
    (h : ∀ c ∈ l, pyIsHexDigit c = true) : hexTail l = true := by
  induction l with
  | nil => rfl
  | cons c rest ih =>
    have hc : pyIsHexDigit c = true := h c (by simp)
    have hne : ¬ (c = '_') := hex_ne c '_' hc (by decide)
    cases rest with
    | nil => simp [hexTail, hne, hc]
    | cons c2 rest2 =>
      rw [hexTail, if_neg hne]
      simp only [hc, Bool.true_and]
      exact ih (fun c3 hc3 => h c3 (by simp [hc3]))

/-- A nonempty run of base-16 digits passes the digit-run check. -/
theorem pyHexDigits_of_allHex (l : List Char) (hne : l ≠ [])
    (h : ∀ c ∈ l, pyIsHexDigit c = true) : pyHexDigits l = true := by
  cases l with
  | nil => exact absurd rfl hne
  | cons c rest =>
    rw [pyHexDigits]
    simp only [h c (by simp), Bool.true_and]
    exact hexTail_of_allHex rest (fun c2 hc2 => h c2 (by simp [hc2]))

/-- A nonempty run of base-16 digits passes the whole base-16 int
conversion: no whitespace to strip, no sign, no 0x marker. -/
theorem pyIntHex16Ok_of_allHex (l : List Char) (hne : l ≠ [])
    (h : ∀ c ∈ l, pyIsHexDigit c = true) : pyIntHex16Ok l = true := by
  rw [pyIntHex16Ok, stripPySpaces_of_allHex l h]
  have hsign : afterSign l = l := by
    cases l with
    | nil => rfl
    | cons c rest =>
      rw [afterSign]
      have hc := h c (by simp)
      rw [if_neg]
      simp only [Bool.or_eq_true, decide_eq_true_eq, not_or]
      exact ⟨hex_ne c '+' hc (by decide), hex_ne c '-' hc (by decide)⟩
  rw [hsign]
  cases l with
  | nil => exact absurd rfl hne
  | cons c0 rest =>
    cases rest with
    | nil =>
      simp only [pyIntHexBody]
      exact pyHexDigits_of_allHex [c0] (by simp) h
    | cons c1 rest2 =>
      simp only [pyIntHexBody]
      have hc1 := h c1 (by simp)
      rw [if_neg]
      · exact pyHexDigits_of_allHex (c0 :: c1 :: rest2) (by simp) h
      · simp only [Bool.and_eq_true, Bool.or_eq_true, decide_eq_true_eq, not_and, not_or]
        intro _
        exact ⟨hex_ne c1 'x' hc1 (by decide), hex_ne c1 'X' hc1 (by decide)⟩

/-- A list passing starts0x begins with the characters 0 and x. -/
theorem starts0x_shape (s : List Char) (h : starts0x s = true) :
    ∃ rest, s = '0' :: 'x' :: rest := by
  match s with
  | [] => cases h
  | [c] => cases h
  | c0 :: c1 :: rest =>
    simp only [starts0x, Bool.and_eq_true, decide_eq_true_eq] at h
    exact ⟨rest, by rw [h.1, h.2]⟩

/-! Claim theorems. -/

/-- C2 counterexample: the 42-character string of 0x, a plus sign and 39
zeros has a character among its last 40 that is not a base-16 digit, yet
validate_address returns true, because the int conversion accepts a
sign. -/
theorem C2_counterexample :
    validate_address plusAddr = true ∧ claimAddrShape plusAddr = false := by
  constructor
  · decide
  · decide

/-- C2 amended: validate_address returns true on every string of exactly
42 characters starting with 0x whose remaining 40 characters are all
base-16 digits, and returns true only on strings of 42 characters
starting with 0x (on any other value or shape it returns false, and it
never raises); the tail however is checked with the base-16 int
conversion, which also accepts signs, underscores, whitespace and an
inner 0x marker, so a true result does not imply the 40 tail characters
are all base-16 digits. -/
theorem C2_validate_address (v : PyValue) :
    (claimAddrShape v = true → validate_address v = true)
    ∧ (validate_address v = true → addrShape42 v = true) := by
  constructor
  · intro h
    cases v with
    | str s =>
      simp only [claimAddrShape, Bool.and_eq_true, decide_eq_true_eq,
        List.all_eq_true] at h
      obtain ⟨⟨hlen, hpre⟩, hhex⟩ := h
      simp only [validate_address, hpre, Bool.not_true, Bool.false_eq_true,
        if_false, hlen]
      rw [if_neg (by omega)]
      refine pyIntHex16Ok_of_allHex (s.drop 2) ?_ hhex
      have hd : (s.drop 2).length = 40 := by rw [List.length_drop, hlen]
      intro he
      rw [he] at hd
      cases hd
    | int n => simp [claimAddrShape] at h
    | float q => simp [claimAddrShape] at h
    | pynone => simp [claimAddrShape] at h
    | pylist id => simp [claimAddrShape] at h
    | pydict id => simp [claimAddrShape] at h
  · intro h
    cases v with
    | str s =>
      simp only [validate_address] at h
      by_cases h1 : starts0x s
      · by_cases h2 : s.length = 42
        · simp [addrShape42, h1, h2]
        · rw [if_neg (by simp [h1]), if_pos h2] at h
          cases h
      · rw [if_pos (by simp [h1])] at h
        cases h
    | int n => simp [validate_address] at h
    | float q => simp [validate_address] at h
    | pynone => simp [validate_address] at h
    | pylist id => simp [validate_address] at h
    | pydict id => simp [validate_address] at h

/-- C2 witness: a 42-character 0x address of 40 base-16 digits validates,
and the accepted value is a 42-character 0x-starting string. -/
theorem C2_validate_address_witness :
    validate_address goodAddr = true ∧ addrShape42 goodAddr = true :=
  ⟨(C2_validate_address goodAddr).1 (by decide),
   (C2_validate_address goodAddr).2 ((C2_validate_address goodAddr).1 (by decide))⟩

/-- C3: when every attempt fails with an error the policy catches, the
wrapper makes exactly max_retries plus one calls before giving up. -/
theorem C3_attempts (catchP : PyExc → Bool) (max_retries : Nat)
    (initial_delay max_delay backoff_factor : ℚ) (f : Nat → Except PyExc α)
    (e : Nat → PyExc)
    (hf : ∀ i, f i = Except.error (e i) ∧ catchP (e i) = true) :
    (retry_on_failure max_retries initial_delay max_delay backoff_factor
      catchP f).attempts = max_retries + 1 := by
  rw [retry_allFail catchP max_retries initial_delay max_delay backoff_factor f e hf]

/-- C3 witness: with max_retries three and every attempt failing with an
APIError, exactly four calls are made. -/
theorem C3_attempts_witness :
    (retry_on_failure 3 1 10 2 isAPIError failSeq).attempts = 4 :=
  C3_attempts isAPIError 3 1 10 2 failSeq failErr (fun _ => ⟨rfl, rfl⟩)

/-- C4: on exhaustion the raised error is exactly the error observed on
the final attempt, unchanged. -/
theorem C4_last_error (catchP : PyExc → Bool) (max_retries : Nat)
    (initial_delay max_delay backoff_factor : ℚ) (f : Nat → Except PyExc α)
    (e : Nat → PyExc)
    (hf : ∀ i, f i = Except.error (e i) ∧ catchP (e i) = true) :
    (retry_on_failure max_retries initial_delay max_delay backoff_factor
      catchP f).outcome = RunOutcome.raised (e max_retries) := by
  rw [retry_allFail catchP max_retries initial_delay max_delay backoff_factor f e hf]

/-- C4 witness: with four distinct per-attempt errors, the raised error is
the fourth attempt's error, not the first's. -/
theorem C4_last_error_witness :
    (retry_on_failure 3 1 10 2 isAPIError failSeq).outcome
        = RunOutcome.raised (failErr 3)
    ∧ failErr 3 ≠ failErr 0 :=
  ⟨C4_last_error isAPIError 3 1 10 2 failSeq failErr (fun _ => ⟨rfl, rfl⟩),
   by decide⟩

/-- C5: for a nonnegative initial delay (per the policy data model a
positive duration) not exceeding the maximum delay and a backoff factor
above one, the sleeps of an exhausted run are exactly the clamped
geometric sequence: the k-th sleep (zero-based) is the minimum of
initial_delay times backoff_factor to the k and max_delay; and the delay
sequence is non-decreasing. -/
theorem C5_backoff (catchP : PyExc → Bool) (max_retries : Nat)
    (initial_delay max_delay backoff_factor : ℚ) (f : Nat → Except PyExc α)
    (e : Nat → PyExc)
    (h0 : 0 ≤ initial_delay) (h2 : initial_delay ≤ max_delay)
    (h3 : 1 < backoff_factor)
    (hf : ∀ i, f i = Except.error (e i) ∧ catchP (e i) = true) :
    (retry_on_failure max_retries initial_delay max_delay backoff_factor
        catchP f).sleeps
      = (List.range max_retries).map
          (fun k => min (initial_delay * backoff_factor ^ k) max_delay)
    ∧ ∀ k, delaySeq initial_delay max_delay backoff_factor k
        ≤ delaySeq initial_delay max_delay backoff_factor (k + 1) := by
  constructor
  · rw [retry_allFail catchP max_retries initial_delay max_delay backoff_factor f e hf]
    have hfun : delaySeq initial_delay max_delay backoff_factor
        = fun k => min (initial_delay * backoff_factor ^ k) max_delay :=
      funext (delaySeq_closed initial_delay max_delay backoff_factor h2 h3)
    rw [hfun]
  · exact delaySeq_mono initial_delay max_delay backoff_factor h0 h2 h3

/-- C5 witness: with the default policy values and seven calls the sleeps
are 1, 2, 4, 8, 10, 10 — clamped and never decreasing. -/
theorem C5_backoff_witness :
    (retry_on_failure 6 1 10 2 isAPIError failSeq).sleeps = [1, 2, 4, 8, 10, 10]
    ∧ delaySeq 1 10 2 3 ≤ delaySeq 1 10 2 4 := by
  have h := C5_backoff isAPIError 6 1 10 2 failSeq failErr
    (by norm_num) (by norm_num) (by norm_num) (fun _ => ⟨rfl, rfl⟩)
  refine ⟨?_, h.2 3⟩
  rw [h.1]
  norm_num [List.range_succ, min_def]

/-- C7: exhaustion always raises the final attempt's error, never the
uninitialized None slot; with zero retries exactly one call is made and
its error raised; and no run of the wrapper ever raises the None slot. -/
theorem C7_always_raises (catchP : PyExc → Bool) (max_retries : Nat)
    (initial_delay max_delay backoff_factor : ℚ) (f : Nat → Except PyExc α)
    (e : Nat → PyExc)
    (hf : ∀ i, f i = Except.error (e i) ∧ catchP (e i) = true) :
    (retry_on_failure max_retries initial_delay max_delay backoff_factor
        catchP f).outcome = RunOutcome.raised (e max_retries)
    ∧ (retry_on_failure 0 initial_delay max_delay backoff_factor
        catchP f).attempts = 1
    ∧ (retry_on_failure 0 initial_delay max_delay backoff_factor
        catchP f).outcome = RunOutcome.raised (e 0)
    ∧ ∀ (g : Nat → Except PyExc α) (mr : Nat),
        (retry_on_failure mr initial_delay max_delay backoff_factor
          catchP g).outcome ≠ RunOutcome.raisedNone := by
  refine ⟨?_, ?_, ?_, ?_⟩
  · rw [retry_allFail catchP max_retries initial_delay max_delay backoff_factor f e hf]
  · rw [retry_allFail catchP 0 initial_delay max_delay backoff_factor f e hf]
  · rw [retry_allFail catchP 0 initial_delay max_delay backoff_factor f e hf]
  · intro g mr
    exact retryGo_ne_raisedNone catchP mr max_delay backoff_factor g
      (mr + 1) 0 initial_delay [] none (fun hc => absurd hc (by omega))

/-- C7 witness: with zero retries the single attempt's error is raised. -/
theorem C7_always_raises_witness :
    (retry_on_failure 0 1 10 2 isAPIError failSeq).attempts = 1
    ∧ (retry_on_failure 0 1 10 2 isAPIError failSeq).outcome
        = RunOutcome.raised (failErr 0) :=
  ⟨(C7_always_raises isAPIError 0 1 10 2 failSeq failErr (fun _ => ⟨rfl, rfl⟩)).2.1,
   (C7_always_raises isAPIError 0 1 10 2 failSeq failErr (fun _ => ⟨rfl, rfl⟩)).2.2.1⟩

/-- C8: when the first attempt fails with a caught error and the second
succeeds, the wrapper returns the success value after two calls and one
sleep of the initial delay, which is at least the initial delay and
below the maximum delay. -/
theorem C8_second_attempt (catchP : PyExc → Bool) (max_retries : Nat)
    (initial_delay max_delay backoff_factor : ℚ) (f : Nat → Except PyExc α)
    (e0 : PyExc) (a : α)
    (hmr : 1 ≤ max_retries) (hlt : initial_delay < max_delay)
    (h0 : f 0 = Except.error e0) (hc : catchP e0 = true)
    (h1 : f 1 = Except.ok a) :
    (retry_on_failure max_retries initial_delay max_delay backoff_factor
        catchP f).outcome = RunOutcome.ok a
    ∧ (retry_on_failure max_retries initial_delay max_delay backoff_factor
        catchP f).attempts = 2
    ∧ (retry_on_failure max_retries initial_delay max_delay backoff_factor
        catchP f).sleeps = [initial_delay]
    ∧ initial_delay ≤ initial_delay ∧ initial_delay < max_delay := by
  obtain ⟨m, rfl⟩ : ∃ m, max_retries = m + 1 := ⟨max_retries - 1, by omega⟩
  have hne : (0 : Nat) ≠ m + 1 := by omega
  have key : retry_on_failure (m + 1) initial_delay max_delay backoff_factor
      catchP f = ⟨RunOutcome.ok a, 2, [initial_delay]⟩ := by
    simp [retry_on_failure, retryGo, h0, hc, h1, hne]
  rw [key]
  exact ⟨rfl, rfl, rfl, le_refl initial_delay, hlt⟩

/-- C8 witness: failure then success under the default policy gives the
payload after one sleep of the initial delay. -/
theorem C8_second_attempt_witness :
    (retry_on_failure 3 1 10 2 isAPIError sndOkSeq).outcome = RunOutcome.ok 7
    ∧ (retry_on_failure 3 1 10 2 isAPIError sndOkSeq).sleeps = [1]
    ∧ (1 : ℚ) ≤ 1 ∧ (1 : ℚ) < 10 := by
  have h := C8_second_attempt isAPIError 3 1 10 2 sndOkSeq
    (.apiError "fail" none none) 7 (by omega) (by norm_num) rfl rfl rfl
  exact ⟨h.1, h.2.2.1, h.2.2.2⟩

/-- C9: an InvalidParameterError is not in the default retryable tuple,
so it propagates from the first call with no further attempt and no
sleep. -/
theorem C9_validation_propagates (max_retries : Nat)
    (initial_delay max_delay backoff_factor : ℚ)
    (f : Nat → Except PyExc α) (verr : ValidationErr)
    (h : f 0 = Except.error (.invalidParameterError verr)) :
    retry_on_failure max_retries initial_delay max_delay backoff_factor
        isAPIError f
      = ⟨RunOutcome.raised (.invalidParameterError verr), 1, []⟩ := by
  simp [retry_on_failure, retryGo, h, isAPIError]

/-- C9 witness: a function raising InvalidParameterError under the
default policy yields one attempt, no sleep, and the error itself. -/
theorem C9_validation_propagates_witness :
    retry_on_failure 3 1 10 2 isAPIError valFailSeq
      = ⟨RunOutcome.raised (.invalidParameterError (.mustBeNumber "x")), 1, []⟩ :=
  C9_validation_propagates 3 1 10 2 valFailSeq (.mustBeNumber "x") rfl

/-- C10: a non-string value with both bounds omitted is returned
unchanged, with no validation and no error. -/
theorem C10_nonstring_passthrough (v : PyValue) (p : String)
    (h : v.isStr = false) :
    validate_numeric_param v p none none = Except.ok v := by
  cases v <;>
    simp [validate_numeric_param, convertNumeric, checkMin, checkMax,
      PyValue.isStr] at h ⊢

/-- C10 witness: the None value passes through untouched. -/
theorem C10_nonstring_passthrough_witness :
    validate_numeric_param PyValue.pynone "x" none none
      = Except.ok PyValue.pynone :=
  C10_nonstring_passthrough PyValue.pynone "x" rfl

/-- C6: a numeric string with a point is parsed by the float conversion
and any other string by the int conversion; the parsed value is returned
with its parsed type preserved when it lies within the inclusive bounds,
and otherwise the call fails with a Validation error carrying the
parameter name, the value and the violated bound. -/
theorem C6_numeric_param (s : List Char) (p : String) (mv xv : PyValue)
    (mq xq : ℚ) (hm : pyNumQ mv = some mq) (hx : pyNumQ xv = some xq) :
    (∀ q : ℚ, s.contains '.' = true → pyFloatOfString s = some q →
      validate_numeric_param (.str s) p (some mv) (some xv) =
        (if q < mq then
          Except.error (.invalidParameterError (.belowMin p (.float q) mv))
        else if xq < q then
          Except.error (.invalidParameterError (.aboveMax p (.float q) xv))
        else Except.ok (.float q)))
    ∧ (∀ n : Int, s.contains '.' = false → pyIntOfString s = some n →
      validate_numeric_param (.str s) p (some mv) (some xv) =
        (if (n : ℚ) < mq then
          Except.error (.invalidParameterError (.belowMin p (.int n) mv))
        else if xq < (n : ℚ) then
          Except.error (.invalidParameterError (.aboveMax p (.int n) xv))
        else Except.ok (.int n))) := by
  constructor
  · intro q hdot hparse
    have hconv : convertNumeric (.str s) p = Except.ok (.float q) := by
      simp only [convertNumeric]
      rw [if_pos hdot, hparse]
    have hqm : pyLt (PyValue.float q) mv = Except.ok (decide (q < mq)) := by
      simp only [pyLt]
      rw [show pyNumQ (PyValue.float q) = some q from rfl, hm]
    have hqx : pyLt xv (PyValue.float q) = Except.ok (decide (xq < q)) := by
      simp only [pyLt]
      rw [show pyNumQ (PyValue.float q) = some q from rfl, hx]
    simp only [validate_numeric_param, hconv, checkMin, checkMax, hqm, hqx]
    by_cases hlo : q < mq
    · simp [hlo]
    · by_cases hhi : xq < q
      · simp [hlo, hhi]
      · simp [hlo, hhi]
  · intro n hdot hparse
    have hconv : convertNumeric (.str s) p = Except.ok (.int n) := by
      simp only [convertNumeric]
      rw [if_neg (by simpa using hdot), hparse]
    have hqm : pyLt (PyValue.int n) mv = Except.ok (decide ((n : ℚ) < mq)) := by
      simp only [pyLt]
      rw [show pyNumQ (PyValue.int n) = some ((n : Int) : ℚ) from rfl, hm]
    have hqx : pyLt xv (PyValue.int n) = Except.ok (decide (xq < (n : ℚ))) := by
      simp only [pyLt]
      rw [show pyNumQ (PyValue.int n) = some ((n : Int) : ℚ) from rfl, hx]
    simp only [validate_numeric_param, hconv, checkMin, checkMax, hqm, hqx]
    by_cases hlo : (n : ℚ) < mq
    · simp [hlo]
    · by_cases hhi : xq < (n : ℚ)
      · simp [hlo, hhi]
      · simp [hlo, hhi]

/-- C6 witness: the string 3.5 with bounds 0 and 10 yields the float
seven halves, and the string 15 with the same bounds fails with the
Validation error naming the maximum 10. -/
theorem C6_numeric_param_witness :
    validate_numeric_param (.str ['3', '.', '5']) "x"
        (some (.int 0)) (some (.int 10)) = Except.ok (.float (7 / 2))
    ∧ validate_numeric_param (.str ['1', '5']) "x"
        (some (.int 0)) (some (.int 10))
      = Except.error (.invalidParameterError
          (.aboveMax "x" (.int 15) (.int 10))) := by
  constructor
  · have h := (C6_numeric_param ['3', '.', '5'] "x" (.int 0) (.int 10)
      ((0 : Int) : ℚ) ((10 : Int) : ℚ) rfl rfl).1
      ((3 : ℚ) + 5 / 10 ^ 1) rfl rfl
    rw [h]
    norm_num
  · have h := (C6_numeric_param ['1', '5'] "x" (.int 0) (.int 10)
      ((0 : Int) : ℚ) ((10 : Int) : ℚ) rfl rfl).2 15 rfl rfl
    rw [h]
    norm_num

/-- C1 counterexample: under the default policy a response with success
status and a body that is not valid JSON is retried like any APIError:
the run makes four attempts with three backoff sleeps, not one attempt
with none. -/
theorem C1_counterexample :
    (API.post badBodyNet).attempts = 4
    ∧ (API.post badBodyNet).sleeps = [1, 2, 4]
    ∧ ¬ ((API.post badBodyNet).attempts = 1
          ∧ (API.post badBodyNet).sleeps = []) := by
  have key : API.post badBodyNet
      = ⟨RunOutcome.raised
            (.apiError "Failed to decode API response: decode" none none),
          4, (List.range 3).map (delaySeq 1 10 2)⟩ :=
    retry_allFail isAPIError 3 1 10 2 _
      (fun _ => .apiError "Failed to decode API response: decode" none none)
      (fun _ => ⟨rfl, rfl⟩)
  refine ⟨?_, ?_, ?_⟩
  · rw [key]
  · rw [key]
    norm_num [List.range_succ, delaySeq, min_def]
  · rw [key]
    rintro ⟨h1, _⟩
    norm_num at h1

/-- C1 amended: a success-status response whose body is not valid JSON
makes post raise the Decode-kind APIError, but the decode error is an
APIError and the default policy retries every APIError, so it is not
raised immediately: the wrapper makes four attempts and sleeps three
times before raising the Decode-kind error. -/
theorem C1_decode_retried (net : Nat → NetResult)
    (h : ∀ i, ∃ r, net i = NetResult.response r
        ∧ r.okStatus = true ∧ r.jsonBody = none) :
    (API.post net).attempts = 4
    ∧ (API.post net).outcome = RunOutcome.raised
        (.apiError "Failed to decode API response: decode" none none)
    ∧ (API.post net).sleeps = [1, 2, 4] := by
  have hf : ∀ i, (fun j => postAttempt (net j)) i
      = Except.error (.apiError "Failed to decode API response: decode" none none)
      ∧ isAPIError (.apiError "Failed to decode API response: decode" none none)
          = true := by
    intro i
    obtain ⟨r, hr, hok, hjson⟩ := h i
    exact ⟨by simp [postAttempt, hr, hok, hjson], rfl⟩
  have key : API.post net
      = ⟨RunOutcome.raised
            (.apiError "Failed to decode API response: decode" none none),
          4, (List.range 3).map (delaySeq 1 10 2)⟩ :=
    retry_allFail isAPIError 3 1 10 2 (fun j => postAttempt (net j))
      (fun _ => .apiError "Failed to decode API response: decode" none none) hf
  refine ⟨?_, ?_, ?_⟩
  · rw [key]
  · rw [key]
  · rw [key]
    norm_num [List.range_succ, delaySeq, min_def]

/-- C1 witness: the always-bad-body network exercises the amended claim:
four attempts and the Decode-kind error raised. -/
theorem C1_decode_retried_witness :
    (API.post badBodyNet).attempts = 4
    ∧ (API.post badBodyNet).outcome = RunOutcome.raised
        (.apiError "Failed to decode API response: decode" none none) :=
  ⟨(C1_decode_retried badBodyNet (fun _ => ⟨_, rfl, rfl, rfl⟩)).1,
   (C1_decode_retried badBodyNet (fun _ => ⟨_, rfl, rfl, rfl⟩)).2.1⟩

end Hyperliquid
